import Mathlib

/-!
Shallow embedding of `src/main.py` of the educational-assistant-backend
repository: a FastAPI backend with two POST endpoints (`/summarize` and
`/key-points`) that forward user text to an external generative-text
service and sanitize the raw response (brace-delimited substring
extraction, JSON parse, field/shape validation) before returning it.

Modelling choices, each tied to the source:

* `Json` models the values produced by Python `json.loads` (numbers are
  modelled as `Int`; no claim depends on numeric values).
* The external call `model.generate_content_async(...)` (main.py lines
  71-77 and 128-134) is modelled by a parameter
  `upstream : Except String String`: `.ok raw` is a normal response whose
  `.text` is `raw`, `.error e` is a transport/service exception (these
  are not `ValueError`s, so in the code they reach the generic
  `except Exception` handler) carrying message `e`.
* `json.loads` (main.py lines 90 and 147) is modelled by a parameter
  `loads : String → Except String PyDict`. The handlers only ever apply
  it to the extracted substring, which always begins with the character
  leftBrace; a successful `json.loads` of such a string is necessarily a
  JSON object, i.e. a Python dict, so the success type is `PyDict`.
  `.error e` models `json.JSONDecodeError` with message `e`.
* `print(...)` diagnostics are modelled by the `logs` field of
  `HandlerResult`; `raise HTTPException(status, detail)` by
  `Response.httpError status detail`; a normal `return data` by
  `Response.ok`.
-/

/-- Values produced by a JSON parse, as Python objects: dict, list, str,
int/float (modelled by `Int`), bool, None. -/
inductive Json where
  | null : Json
  | bool (b : Bool) : Json
  | num (n : Int) : Json
  | str (s : String) : Json
  | arr (elems : List Json) : Json
  | obj (fields : List (String × Json)) : Json

/-- A Python dict as produced by `json.loads` on a JSON object: an
association list of string keys to values (keys effectively unique,
later duplicates overwrite earlier ones). -/
def PyDict : Type := List (String × Json)

/-- The character left brace, written via its code point. -/
def leftBrace : Char := '\x7b'

/-- The character right brace, written via its code point. -/
def rightBrace : Char := '\x7d'

/-- Python `s.find(c)` for a single character: index of the first
occurrence, `none` modelling the -1 returned when absent. -/
def py_find : List Char → Char → Option Nat
  | [], _ => none
  | a :: as, c => if a = c then some 0 else (py_find as c).map (· + 1)

/-- Python `s.rfind(c)` for a single character: index of the last
occurrence, `none` modelling the -1 returned when absent. -/
def py_rfind (s : List Char) (c : Char) : Option Nat :=
  (py_find s.reverse c).map (fun k => s.length - 1 - k)

/-- Python slice `s[i : j]` on a list of characters. -/
def py_slice (s : List Char) (i j : Nat) : List Char :=
  (s.drop i).take (j - i)

/-- Lines 81-86 / 138-143 of main.py: locate the first left brace and the
last right brace; if both are found and the last strictly follows the
first, return the inclusive substring `s[start : end + 1]`, otherwise
fail (the `else` branch raises `ValueError`). -/
def extract_json (s : List Char) : Option (List Char) :=
  match py_find s leftBrace, py_rfind s rightBrace with
  | some start_index, some end_index =>
      if end_index > start_index then
        some (py_slice s start_index (end_index + 1))
      else
        none
  | _, _ => none

/-- Python `k in d` for a dict: key membership. -/
def py_dict_contains (d : PyDict) (k : String) : Bool :=
  d.any (fun kv => kv.1 = k)

/-- Python `d.get(k)` for a dict: the value at `k` (later duplicate
bindings overwrite earlier ones), or `none` modelling `None`. -/
def py_dict_get (d : PyDict) (k : String) : Option Json :=
  (d.reverse.find? (fun kv => kv.1 = k)).map (fun kv => kv.2)

/-- Python `isinstance(x, list)` applied to the result of `d.get(k)`
(`isinstance(None, list)` is `False`, so an absent key fails too). -/
def py_isinstance_list : Option Json → Bool
  | some (Json.arr _) => true
  | _ => false

/-- True when every element of the list is a JSON string. -/
def all_strings (xs : List Json) : Bool :=
  xs.all (fun j => match j with | Json.str _ => true | _ => false)

/-- The HTTP-level outcome of a handler: a 200 response with a JSON body,
or an `HTTPException` with a status code and a detail string. -/
inductive Response where
  | ok (body : Json) : Response
  | httpError (status : Nat) (detail : String) : Response

/-- A handler run: its HTTP response together with the server-side
`print` log lines it emitted, in order. -/
structure HandlerResult where
  resp : Response
  logs : List String

/-- Detail of the `ValueError` raised when the API key is empty
(main.py lines 55 and 111). -/
def msgNoKey : String :=
  "La clave API de Gemini no está configurada. Por favor, verifica tu archivo .env o variables de entorno."

/-- Detail of the `ValueError` raised by `/summarize` when no valid brace
pair is found (main.py line 86). -/
def msgBadFormatSummarize : String :=
  "La IA no devolvió un formato JSON válido o esperado."

/-- Detail of the `ValueError` raised by `/summarize` when the extracted
substring fails to parse (main.py line 94). -/
def msgInvalidJsonSummarize : String :=
  "La IA devolvió un JSON inválido."

/-- Detail of the `ValueError` raised by `/summarize` when a summary
field is missing (main.py line 97). -/
def msgMissingSummaries : String :=
  "La respuesta de la IA no contiene los resúmenes en ambos idiomas."

/-- Detail of the 500 error of `/summarize` (main.py line 105). -/
def msgInternalSummarize : String :=
  "Error interno del servidor al procesar la solicitud."

/-- Detail of the `ValueError` raised by `/key-points` when no valid
brace pair is found (main.py line 143). -/
def msgBadFormatKeyPoints : String :=
  "La IA no devolvió un formato JSON válido o esperado para los puntos clave."

/-- Detail of the `ValueError` raised by `/key-points` when the extracted
substring fails to parse (main.py line 151). -/
def msgInvalidJsonKeyPoints : String :=
  "La IA devolvió un JSON inválido para puntos clave."

/-- Detail of the `ValueError` raised by `/key-points` when a key-points
field is missing or not a list (main.py line 155). -/
def msgMissingKeyPoints : String :=
  "La respuesta de la IA no contiene los puntos clave en formato de lista en ambos idiomas."

/-- Detail of the 500 error of `/key-points` (main.py line 163). -/
def msgInternalKeyPoints : String :=
  "Error interno del servidor al procesar la solicitud de puntos clave."

/-- Lines 88-99 of main.py, after the substring has been extracted: parse
with `json.loads` (outcome `loadsResult`), on `JSONDecodeError` print two
diagnostics and raise the invalid-JSON `ValueError`; then require both
summary keys to be present and return the parsed dict unchanged. -/
def summarize_validate (loadsResult : Except String PyDict) (cleaned : String) : HandlerResult :=
  match loadsResult with
  | Except.error e =>
      ⟨Response.httpError 400 msgInvalidJsonSummarize,
        ["Error al decodificar JSON de la IA: " ++ e,
         "Texto recibido de la IA: " ++ cleaned]⟩
  | Except.ok summary_data =>
      if py_dict_contains summary_data ("summary_es") && py_dict_contains summary_data ("summary_en") then
        ⟨Response.ok (Json.obj summary_data), []⟩
      else
        ⟨Response.httpError 400 msgMissingSummaries, []⟩

/-- The `/summarize` handler (main.py lines 51-105) given the API key,
the outcome of the single external call, and the `json.loads` oracle.
An empty key raises the not-configured `ValueError` before the external
call; every `ValueError` becomes a 400 with its message, every other
exception a 500 with a generic detail. -/
def summarize_text (loads : String → Except String PyDict) (gemini_api_key : String)
    (upstream : Except String String) : HandlerResult :=
  if gemini_api_key = "" then
    ⟨Response.httpError 400 msgNoKey, []⟩
  else
    match upstream with
    | Except.error e =>
        ⟨Response.httpError 500 msgInternalSummarize,
          ["Error inesperado en summarize_text: " ++ e]⟩
    | Except.ok generated_json_text =>
        match extract_json generated_json_text.toList with
        | none => ⟨Response.httpError 400 msgBadFormatSummarize, []⟩
        | some cs => summarize_validate (loads (String.mk cs)) (String.mk cs)

/-- Lines 145-157 of main.py, after the substring has been extracted:
parse with `json.loads`, on `JSONDecodeError` print two diagnostics and
raise the invalid-JSON `ValueError`; then require both key-points values
to be lists and return the parsed dict unchanged. -/
def key_points_validate (loadsResult : Except String PyDict) (cleaned : String) : HandlerResult :=
  match loadsResult with
  | Except.error e =>
      ⟨Response.httpError 400 msgInvalidJsonKeyPoints,
        ["Error al decodificar JSON de la IA para puntos clave: " ++ e,
         "Texto recibido de la IA para puntos clave: " ++ cleaned]⟩
  | Except.ok key_points_data =>
      if !(py_isinstance_list (py_dict_get key_points_data ("key_points_es"))) ||
         !(py_isinstance_list (py_dict_get key_points_data ("key_points_en"))) then
        ⟨Response.httpError 400 msgMissingKeyPoints, []⟩
      else
        ⟨Response.ok (Json.obj key_points_data), []⟩

/-- The `/key-points` handler (main.py lines 107-163) given the API key,
the outcome of the single external call, and the `json.loads` oracle. -/
def get_key_points (loads : String → Except String PyDict) (gemini_api_key : String)
    (upstream : Except String String) : HandlerResult :=
  if gemini_api_key = "" then
    ⟨Response.httpError 400 msgNoKey, []⟩
  else
    match upstream with
    | Except.error e =>
        ⟨Response.httpError 500 msgInternalKeyPoints,
          ["Error inesperado en get_key_points: " ++ e]⟩
    | Except.ok generated_json_text =>
        match extract_json generated_json_text.toList with
        | none => ⟨Response.httpError 400 msgBadFormatKeyPoints, []⟩
        | some cs => key_points_validate (loads (String.mk cs)) (String.mk cs)

/-- The pydantic request model `TextRequest` (main.py lines 44-45): a
single field `text` declared as `str` with no further constraint. -/
structure TextRequest where
  text : String

/-- Pydantic validation of a JSON request body against `TextRequest`
(main.py lines 44-45): the body must be an object whose field named text
is a JSON string; any string value, the empty string included, is
accepted, since the model declares `text: str` with no constraint. -/
def textRequest_validate (body : Json) : Option TextRequest :=
  match body with
  | Json.obj fields =>
      match py_dict_get fields ("text") with
      | some (Json.str s) => some ⟨s⟩
      | _ => none
  | _ => none

/-- The f-string prompt of `/summarize` (main.py lines 59-69), with the
request text interpolated verbatim inside the quoted block. -/
def prompt_summarize (text : String) : String :=
  "\n        Eres un asistente de contenido educativo diseñado para ayudar a padres.\n        Tu tarea es resumir el siguiente texto educativo de manera concisa y fácil de entender para un adulto.\n        Además, proporciona el mismo resumen en dos idiomas: español e inglés.\n        Devuelve la respuesta estrictamente en formato JSON con las siguientes propiedades:\n        \"summary_es\" (el resumen en español) y \"summary_en\" (el resumen en inglés).\n        Asegúrate de que la respuesta sea solo el objeto JSON, sin texto adicional ni preámbulos como \"json\" o \"```json\".\n\n        Texto a resumir:\n        \"" ++ text ++ "\"\n        "

/-- The f-string prompt of `/key-points` (main.py lines 115-126), with
the request text interpolated verbatim inside the quoted block. -/
def prompt_key_points (text : String) : String :=
  "\n        Eres un asistente de contenido educativo diseñado para ayudar a padres.\n        Tu tarea es extraer los 3 a 5 puntos clave o ideas principales del siguiente texto educativo.\n        Proporciona estos puntos clave en formato de lista, tanto en español como en inglés.\n        Devuelve la respuesta estrictamente en formato JSON con las siguientes propiedades:\n        \"key_points_es\" (una lista de strings con los puntos clave en español) y\n        \"key_points_en\" (una lista de strings con los puntos clave en inglés).\n        Asegúrate de que la respuesta sea solo el objeto JSON, sin texto adicional ni preámbulos como \"json\" o \"```json\".\n\n        Texto para extraer puntos clave:\n        \"" ++ text ++ "\"\n        "

/-- A full `/summarize` request: build the prompt from the request text
and make the single external call, modelled by the (mocked) service
function `svc` from prompt to outcome, then run the handler on it. -/
def summarize_endpoint (loads : String → Except String PyDict) (gemini_api_key : String)
    (svc : String → Except String String) (text : String) : HandlerResult :=
  summarize_text loads gemini_api_key (svc (prompt_summarize text))

/-- A full `/key-points` request: build the prompt from the request text
and make the single external call, modelled by the (mocked) service
function `svc` from prompt to outcome, then run the handler on it. -/
def key_points_endpoint (loads : String → Except String PyDict) (gemini_api_key : String)
    (svc : String → Except String String) (text : String) : HandlerResult :=
  get_key_points loads gemini_api_key (svc (prompt_key_points text))

/-! Helper lemmas about the embedded operations. -/

/-- If `py_find` locates `c` at index `i`, then the suffix of the text
from `i` begins with `c`. -/
lemma py_find_drop (l : List Char) (c : Char) :
    ∀ i, py_find l c = some i → (l.drop i).head? = some c := by
  induction l with
  | nil => intro i h; simp [py_find] at h
  | cons a as ih =>
    intro i h
    unfold py_find at h
    by_cases hac : a = c
    · rw [if_pos hac] at h
      injection h with h'
      subst h'
      subst hac
      rfl
    · rw [if_neg hac] at h
      cases hfa : py_find as c with
      | none => rw [hfa] at h; simp at h
      | some i' =>
        rw [hfa] at h
        dsimp only [Option.map] at h
        injection h with h'
        subst h'
        exact ih i' hfa

/-- Every substring returned by `extract_json` contains a left brace
(its first character is the brace `py_find` located). -/
lemma extract_json_mem_leftBrace (l : List Char) (cs : List Char)
    (h : extract_json l = some cs) : leftBrace ∈ cs := by
  unfold extract_json at h
  cases hf : py_find l leftBrace with
  | none => rw [hf] at h; simp at h
  | some i =>
    cases hr : py_rfind l rightBrace with
    | none => rw [hf, hr] at h; simp at h
    | some j =>
      rw [hf, hr] at h
      dsimp only at h
      by_cases hij : j > i
      · rw [if_pos hij] at h
        injection h with h'
        subst h'
        have hd := py_find_drop l leftBrace i hf
        unfold py_slice
        cases hld : l.drop i with
        | nil => rw [hld] at hd; simp at hd
        | cons x xs =>
          rw [hld] at hd
          simp only [List.head?_cons, Option.some.injEq] at hd
          have hsucc : j + 1 - i = (j - i) + 1 := by omega
          rw [hsucc, List.take_succ_cons]
          exact hd ▸ List.mem_cons_self x _
      · rw [if_neg hij] at h; simp at h

/-- When there is no valid brace pair (no left brace, no right brace, or
the last right brace strictly precedes the first left brace), extraction
fails. -/
lemma extract_json_eq_none (l : List Char)
    (h : py_find l leftBrace = none ∨ py_rfind l rightBrace = none ∨
      ∃ i j, py_find l leftBrace = some i ∧ py_rfind l rightBrace = some j ∧ j < i) :
    extract_json l = none := by
  unfold extract_json
  rcases h with h | h | ⟨i, j, hi, hj, hij⟩
  · rw [h]
  · rw [h]
    cases py_find l leftBrace <;> rfl
  · rw [hi, hj]
    dsimp only
    rw [if_neg (by omega : ¬ j > i)]

/-- When both braces are found in the right order, extraction returns
exactly the inclusive slice between them. -/
lemma extract_json_eq_slice (l : List Char) (i j : Nat)
    (hi : py_find l leftBrace = some i) (hj : py_rfind l rightBrace = some j)
    (hij : i < j) : extract_json l = some (py_slice l i (j + 1)) := by
  unfold extract_json
  rw [hi, hj]
  dsimp only
  rw [if_pos (by omega : j > i)]

/-- With a configured key and a successful external call, the
`/summarize` handler is the sanitizer applied to the raw text. -/
lemma summarize_text_ok_unfold (loads : String → Except String PyDict) (key : String)
    (raw : String) (hk : ¬ key = "") :
    summarize_text loads key (Except.ok raw) =
      match extract_json raw.toList with
      | none => ⟨Response.httpError 400 msgBadFormatSummarize, []⟩
      | some cs => summarize_validate (loads (String.mk cs)) (String.mk cs) := by
  unfold summarize_text
  rw [if_neg hk]

/-- With a configured key and a successful external call, the
`/key-points` handler is the sanitizer applied to the raw text. -/
lemma get_key_points_ok_unfold (loads : String → Except String PyDict) (key : String)
    (raw : String) (hk : ¬ key = "") :
    get_key_points loads key (Except.ok raw) =
      match extract_json raw.toList with
      | none => ⟨Response.httpError 400 msgBadFormatKeyPoints, []⟩
      | some cs => key_points_validate (loads (String.mk cs)) (String.mk cs) := by
  unfold get_key_points
  rw [if_neg hk]

/-! The claims. -/

/-- Claim C6: for every request to /summarize or /key-points, if the API
key credential is absent (the empty string, which is falsy in Python),
the handler returns a 400 error with the not-configured detail — the
same result for every possible upstream outcome, so no external call can
influence it — and no unhandled exception escapes. -/
theorem claim_C6_no_api_key (loads : String → Except String PyDict)
    (u : Except String String) :
    summarize_text loads ("") u = ⟨Response.httpError 400 msgNoKey, []⟩ ∧
    get_key_points loads ("") u = ⟨Response.httpError 400 msgNoKey, []⟩ :=
  ⟨rfl, rfl⟩

/-- Claim C7: with a configured key, if the single external call raises a
transport or service error (an exception that is not a ValueError), both
handlers return a 500 response whose detail is the fixed generic message;
the exception detail `e` goes only to the server-side log. The embedding
consumes exactly one upstream outcome per request: no retry exists. -/
theorem claim_C7_upstream_error (loads : String → Except String PyDict)
    (key : String) (e : String) (hk : key ≠ "") :
    summarize_text loads key (Except.error e) =
      ⟨Response.httpError 500 msgInternalSummarize,
        ["Error inesperado en summarize_text: " ++ e]⟩ ∧
    get_key_points loads key (Except.error e) =
      ⟨Response.httpError 500 msgInternalKeyPoints,
        ["Error inesperado en get_key_points: " ++ e]⟩ := by
  constructor
  · unfold summarize_text
    rw [if_neg hk]
  · unfold get_key_points
    rw [if_neg hk]

/-- Witness for claim C7 at a concrete key and exception. -/
theorem claim_C7_upstream_error_witness :
    summarize_text (fun _ => Except.error ("x")) ("k") (Except.error ("boom")) =
      ⟨Response.httpError 500 msgInternalSummarize,
        ["Error inesperado en summarize_text: " ++ "boom"]⟩ ∧
    get_key_points (fun _ => Except.error ("x")) ("k") (Except.error ("boom")) =
      ⟨Response.httpError 500 msgInternalKeyPoints,
        ["Error inesperado en get_key_points: " ++ "boom"]⟩ :=
  claim_C7_upstream_error _ _ _ (by decide)

/-- Claim C8: two runs of the same endpoint with identical request text
against the same (mocked) upstream service produce identical results:
each handler is a pure function of its inputs, with no other state. -/
theorem claim_C8_deterministic (loads : String → Except String PyDict)
    (key : String) (svc : String → Except String String) (t t' : String)
    (h : t = t') :
    summarize_endpoint loads key svc t = summarize_endpoint loads key svc t' ∧
    key_points_endpoint loads key svc t = key_points_endpoint loads key svc t' := by
  subst h
  exact ⟨rfl, rfl⟩

/-- Witness for claim C8 at a concrete text and mocked service. -/
theorem claim_C8_deterministic_witness :
    summarize_endpoint (fun _ => Except.error ("x")) ("k") (fun _ => Except.ok ("y")) ("a") =
      summarize_endpoint (fun _ => Except.error ("x")) ("k") (fun _ => Except.ok ("y")) ("a") ∧
    key_points_endpoint (fun _ => Except.error ("x")) ("k") (fun _ => Except.ok ("y")) ("a") =
      key_points_endpoint (fun _ => Except.error ("x")) ("k") (fun _ => Except.ok ("y")) ("a") :=
  claim_C8_deterministic _ _ _ _ _ rfl

/-- Claim C9, corrected: the pydantic model declares `text: str` with no
constraint (main.py lines 44-45), so any JSON body whose text field is a
string — the empty string included — validates as a TextRequest and is
processed; no non-emptiness check exists anywhere in the code. -/
theorem claim_C9_empty_text_accepted (s : String) :
    textRequest_validate (Json.obj [(("text"), Json.str s)]) = some ⟨s⟩ := rfl

/-- Counterexample to claim C9 as stated: the request body whose text
field is the empty string IS processed as a valid TextRequest. -/
theorem claim_C9_counterexample :
    textRequest_validate (Json.obj [(("text"), Json.str (""))]) = some ⟨""⟩ := rfl

/-- Claim C2: with a configured key, whenever the raw upstream text
slices (from the first left brace to the last right brace) to a substring
that parses to a dict containing both summary_es and summary_en, the
/summarize handler returns 200 with exactly that parsed dict, unchanged —
any prose before or after the braces is irrelevant. -/
theorem claim_C2_summarize_passthrough (loads : String → Except String PyDict)
    (key raw : String) (cs : List Char) (d : PyDict) (hk : key ≠ "")
    (hex : extract_json raw.toList = some cs)
    (hld : loads (String.mk cs) = Except.ok d)
    (h1 : py_dict_contains d ("summary_es") = true)
    (h2 : py_dict_contains d ("summary_en") = true) :
    summarize_text loads key (Except.ok raw) = ⟨Response.ok (Json.obj d), []⟩ := by
  rw [summarize_text_ok_unfold loads key raw hk, hex]
  dsimp only
  unfold summarize_validate
  rw [hld]
  dsimp only
  rw [h1, h2]
  rfl

/-- Witness for claim C2: the specification example, a summary object
wrapped in prose on both sides, passed through unchanged. -/
theorem claim_C2_summarize_passthrough_witness :
    summarize_text
      (fun _ => Except.ok [(("summary_es"), Json.str ("Resumen.")), (("summary_en"), Json.str ("Summary."))])
      ("k")
      (Except.ok ("blah \x7b\"summary_es\":\"Resumen.\",\"summary_en\":\"Summary.\"\x7d blah")) =
      ⟨Response.ok (Json.obj [(("summary_es"), Json.str ("Resumen.")), (("summary_en"), Json.str ("Summary."))]), []⟩ :=
  claim_C2_summarize_passthrough _ _ _
    (("\x7b\"summary_es\":\"Resumen.\",\"summary_en\":\"Summary.\"\x7d").toList) _
    (by decide) rfl rfl rfl rfl

/-- Claim C4: for every raw upstream text, if the first left brace or the
last right brace is absent, or the last right brace precedes the first
left brace, both handlers fail with their 400 malformed-output error;
otherwise extraction yields the inclusive slice between the two indices
and each handler is exactly the parse-and-validate stage applied to the
parse of that slice — that slice is the exact string given to the JSON
parser. -/
theorem claim_C4_brace_extraction (loads : String → Except String PyDict)
    (key raw : String) (hk : key ≠ "") :
    ((py_find raw.toList leftBrace = none ∨ py_rfind raw.toList rightBrace = none ∨
        ∃ i j, py_find raw.toList leftBrace = some i ∧
          py_rfind raw.toList rightBrace = some j ∧ j < i) →
      summarize_text loads key (Except.ok raw) =
        ⟨Response.httpError 400 msgBadFormatSummarize, []⟩ ∧
      get_key_points loads key (Except.ok raw) =
        ⟨Response.httpError 400 msgBadFormatKeyPoints, []⟩) ∧
    (∀ i j, py_find raw.toList leftBrace = some i →
      py_rfind raw.toList rightBrace = some j → i < j →
      extract_json raw.toList = some (py_slice raw.toList i (j + 1)) ∧
      summarize_text loads key (Except.ok raw) =
        summarize_validate (loads (String.mk (py_slice raw.toList i (j + 1))))
          (String.mk (py_slice raw.toList i (j + 1))) ∧
      get_key_points loads key (Except.ok raw) =
        key_points_validate (loads (String.mk (py_slice raw.toList i (j + 1))))
          (String.mk (py_slice raw.toList i (j + 1)))) := by
  constructor
  · intro hcond
    have hnone := extract_json_eq_none raw.toList hcond
    constructor
    · rw [summarize_text_ok_unfold loads key raw hk, hnone]
    · rw [get_key_points_ok_unfold loads key raw hk, hnone]
  · intro i j hi hj hij
    have hsl := extract_json_eq_slice raw.toList i j hi hj hij
    refine ⟨hsl, ?_, ?_⟩
    · rw [summarize_text_ok_unfold loads key raw hk, hsl]
    · rw [get_key_points_ok_unfold loads key raw hk, hsl]

/-- Witness for claim C4: a braceless text hits the 400 branch of both
handlers, and a text with one brace pair is sliced exactly. -/
theorem claim_C4_brace_extraction_witness :
    (summarize_text (fun _ => Except.error ("nope")) ("k") (Except.ok ("no json here")) =
        ⟨Response.httpError 400 msgBadFormatSummarize, []⟩ ∧
      get_key_points (fun _ => Except.error ("nope")) ("k") (Except.ok ("no json here")) =
        ⟨Response.httpError 400 msgBadFormatKeyPoints, []⟩) ∧
    (extract_json (String.toList ("a\x7bb\x7dc")) =
        some (py_slice (String.toList ("a\x7bb\x7dc")) 1 (3 + 1)) ∧
      summarize_text (fun _ => Except.error ("nope")) ("k") (Except.ok ("a\x7bb\x7dc")) =
        summarize_validate ((fun _ => Except.error ("nope")) (String.mk (py_slice (String.toList ("a\x7bb\x7dc")) 1 (3 + 1))))
          (String.mk (py_slice (String.toList ("a\x7bb\x7dc")) 1 (3 + 1))) ∧
      get_key_points (fun _ => Except.error ("nope")) ("k") (Except.ok ("a\x7bb\x7dc")) =
        key_points_validate ((fun _ => Except.error ("nope")) (String.mk (py_slice (String.toList ("a\x7bb\x7dc")) 1 (3 + 1))))
          (String.mk (py_slice (String.toList ("a\x7bb\x7dc")) 1 (3 + 1)))) :=
  ⟨(claim_C4_brace_extraction (fun _ => Except.error ("nope")) ("k") ("no json here")
      (by decide)).1 (Or.inl rfl),
   (claim_C4_brace_extraction (fun _ => Except.error ("nope")) ("k") ("a\x7bb\x7dc")
      (by decide)).2 1 3 rfl rfl (by omega)⟩

/-- Claim C5: with a configured key, when braces are found but the
extracted substring fails to parse, each handler returns 400 with its
fixed invalid-JSON detail; the offending substring appears only in the
server-side log lines, and the client-facing detail message does not
contain it (the substring always holds a left brace, the details hold
none). -/
theorem claim_C5_parse_error (loads : String → Except String PyDict)
    (key raw : String) (cs : List Char) (e : String) (hk : key ≠ "")
    (hex : extract_json raw.toList = some cs)
    (hld : loads (String.mk cs) = Except.error e) :
    (summarize_text loads key (Except.ok raw) =
        ⟨Response.httpError 400 msgInvalidJsonSummarize,
          ["Error al decodificar JSON de la IA: " ++ e,
           "Texto recibido de la IA: " ++ String.mk cs]⟩ ∧
      get_key_points loads key (Except.ok raw) =
        ⟨Response.httpError 400 msgInvalidJsonKeyPoints,
          ["Error al decodificar JSON de la IA para puntos clave: " ++ e,
           "Texto recibido de la IA para puntos clave: " ++ String.mk cs]⟩) ∧
    (¬ List.IsInfix cs (String.toList msgInvalidJsonSummarize) ∧
      ¬ List.IsInfix cs (String.toList msgInvalidJsonKeyPoints)) := by
  have hmem := extract_json_mem_leftBrace raw.toList cs hex
  constructor
  · constructor
    · rw [summarize_text_ok_unfold loads key raw hk, hex]
      dsimp only
      unfold summarize_validate
      rw [hld]
    · rw [get_key_points_ok_unfold loads key raw hk, hex]
      dsimp only
      unfold key_points_validate
      rw [hld]
  · constructor
    · intro hinf
      have : leftBrace ∈ String.toList msgInvalidJsonSummarize := hinf.subset hmem
      exact absurd this (by decide)
    · intro hinf
      have : leftBrace ∈ String.toList msgInvalidJsonKeyPoints := hinf.subset hmem
      exact absurd this (by decide)

/-- Witness for claim C5: braces around text that is not JSON. -/
theorem claim_C5_parse_error_witness :
    (summarize_text (fun _ => Except.error ("Expecting value")) ("k") (Except.ok ("x\x7b bad \x7dy")) =
        ⟨Response.httpError 400 msgInvalidJsonSummarize,
          ["Error al decodificar JSON de la IA: " ++ "Expecting value",
           "Texto recibido de la IA: " ++ String.mk (String.toList ("\x7b bad \x7d"))]⟩ ∧
      get_key_points (fun _ => Except.error ("Expecting value")) ("k") (Except.ok ("x\x7b bad \x7dy")) =
        ⟨Response.httpError 400 msgInvalidJsonKeyPoints,
          ["Error al decodificar JSON de la IA para puntos clave: " ++ "Expecting value",
           "Texto recibido de la IA para puntos clave: " ++ String.mk (String.toList ("\x7b bad \x7d"))]⟩) ∧
    (¬ List.IsInfix (String.toList ("\x7b bad \x7d")) (String.toList msgInvalidJsonSummarize) ∧
      ¬ List.IsInfix (String.toList ("\x7b bad \x7d")) (String.toList msgInvalidJsonKeyPoints)) :=
  claim_C5_parse_error _ _ _ (String.toList ("\x7b bad \x7d")) _ (by decide) rfl rfl

/-- A handler result built from an HTTP error never equals one built
from a 200 response. -/
lemma handler_httpError_ne_ok (s : Nat) (dtl : String) (lg : List String)
    (r : Json) (logs : List String) :
    (⟨Response.httpError s dtl, lg⟩ : HandlerResult) = ⟨Response.ok r, logs⟩ → False := by
  intro h
  injection h with h1 h2
  exact Response.noConfusion h1

/-- Claim C1: the sanitizer invariant. Whenever either handler returns a
200 result, the body is the parsed dict and the required language fields
were validated: both summary keys present for /summarize, both
key-points values lists for /key-points (per the spec, presence is the
required shape for summaries and a sequence container for key points);
in every other case the handler produced an error, never a result. -/
theorem claim_C1_sanitizer_invariant (loads : String → Except String PyDict)
    (key : String) (u : Except String String) (r : Json) (logs : List String) :
    (summarize_text loads key u = ⟨Response.ok r, logs⟩ →
      ∃ d, r = Json.obj d ∧ py_dict_contains d ("summary_es") = true ∧
        py_dict_contains d ("summary_en") = true) ∧
    (get_key_points loads key u = ⟨Response.ok r, logs⟩ →
      ∃ d, r = Json.obj d ∧
        py_isinstance_list (py_dict_get d ("key_points_es")) = true ∧
        py_isinstance_list (py_dict_get d ("key_points_en")) = true) := by
  constructor
  · intro h
    by_cases hk : key = ""
    · subst hk
      exact (handler_httpError_ne_ok _ _ _ _ _ h).elim
    · cases u with
      | error e =>
        unfold summarize_text at h
        rw [if_neg hk] at h
        dsimp only at h
        exact (handler_httpError_ne_ok _ _ _ _ _ h).elim
      | ok raw =>
        rw [summarize_text_ok_unfold loads key raw hk] at h
        cases hex : extract_json raw.toList with
        | none =>
          rw [hex] at h
          exact (handler_httpError_ne_ok _ _ _ _ _ h).elim
        | some cs =>
          rw [hex] at h
          dsimp only at h
          unfold summarize_validate at h
          cases hld : loads (String.mk cs) with
          | error e =>
            rw [hld] at h
            exact (handler_httpError_ne_ok _ _ _ _ _ h).elim
          | ok d =>
            rw [hld] at h
            dsimp only at h
            by_cases hc : (py_dict_contains d ("summary_es") &&
                py_dict_contains d ("summary_en")) = true
            · rw [if_pos hc] at h
              injection h with h1 h2
              injection h1 with h3
              exact ⟨d, h3.symm, (Bool.and_eq_true _ _).mp hc⟩
            · rw [if_neg hc] at h
              exact (handler_httpError_ne_ok _ _ _ _ _ h).elim
  · intro h
    by_cases hk : key = ""
    · subst hk
      exact (handler_httpError_ne_ok _ _ _ _ _ h).elim
    · cases u with
      | error e =>
        unfold get_key_points at h
        rw [if_neg hk] at h
        dsimp only at h
        exact (handler_httpError_ne_ok _ _ _ _ _ h).elim
      | ok raw =>
        rw [get_key_points_ok_unfold loads key raw hk] at h
        cases hex : extract_json raw.toList with
        | none =>
          rw [hex] at h
          exact (handler_httpError_ne_ok _ _ _ _ _ h).elim
        | some cs =>
          rw [hex] at h
          dsimp only at h
          unfold key_points_validate at h
          cases hld : loads (String.mk cs) with
          | error e =>
            rw [hld] at h
            exact (handler_httpError_ne_ok _ _ _ _ _ h).elim
          | ok d =>
            rw [hld] at h
            dsimp only at h
            by_cases hc : (!(py_isinstance_list (py_dict_get d ("key_points_es"))) ||
                !(py_isinstance_list (py_dict_get d ("key_points_en")))) = true
            · rw [if_pos hc] at h
              exact (handler_httpError_ne_ok _ _ _ _ _ h).elim
            · rw [if_neg hc] at h
              injection h with h1 h2
              injection h1 with h3
              have hc' := hc
              simp only [Bool.or_eq_true, Bool.not_eq_true', not_or] at hc'
              exact ⟨d, h3.symm, by simpa using hc'.1, by simpa using hc'.2⟩

/-- Witness for claim C1: concrete 200 responses of both handlers, whose
bodies indeed carry the validated fields. -/
theorem claim_C1_sanitizer_invariant_witness :
    (∃ d, Json.obj [(("summary_es"), Json.str ("a")), (("summary_en"), Json.str ("b"))] = Json.obj d ∧
      py_dict_contains d ("summary_es") = true ∧ py_dict_contains d ("summary_en") = true) ∧
    (∃ d, Json.obj [(("key_points_es"), Json.arr [Json.str ("a")]), (("key_points_en"), Json.arr [Json.str ("b")])] = Json.obj d ∧
      py_isinstance_list (py_dict_get d ("key_points_es")) = true ∧
      py_isinstance_list (py_dict_get d ("key_points_en")) = true) :=
  ⟨(claim_C1_sanitizer_invariant
      (fun _ => Except.ok [(("summary_es"), Json.str ("a")), (("summary_en"), Json.str ("b"))])
      ("k") (Except.ok ("\x7b\x7d"))
      (Json.obj [(("summary_es"), Json.str ("a")), (("summary_en"), Json.str ("b"))]) []).1 rfl,
   (claim_C1_sanitizer_invariant
      (fun _ => Except.ok [(("key_points_es"), Json.arr [Json.str ("a")]), (("key_points_en"), Json.arr [Json.str ("b")])])
      ("k") (Except.ok ("\x7b\x7d"))
      (Json.obj [(("key_points_es"), Json.arr [Json.str ("a")]), (("key_points_en"), Json.arr [Json.str ("b")])]) []).2 rfl⟩

/-- Claim C3: with a configured key and a parsed dict from the extracted
substring, /key-points returns 400 with the list-shape error whenever
either key-points value fails `isinstance(..., list)` (a bare string or
scalar, or an absent key), and returns 200 with the dict unchanged when
both values are lists of strings. -/
theorem claim_C3_key_points_shape (loads : String → Except String PyDict)
    (key raw : String) (cs : List Char) (d : PyDict) (hk : key ≠ "")
    (hex : extract_json raw.toList = some cs)
    (hld : loads (String.mk cs) = Except.ok d) :
    ((py_isinstance_list (py_dict_get d ("key_points_es")) = false ∨
        py_isinstance_list (py_dict_get d ("key_points_en")) = false) →
      get_key_points loads key (Except.ok raw) =
        ⟨Response.httpError 400 msgMissingKeyPoints, []⟩) ∧
    (∀ xs ys, py_dict_get d ("key_points_es") = some (Json.arr xs) →
      py_dict_get d ("key_points_en") = some (Json.arr ys) →
      all_strings xs = true → all_strings ys = true →
      get_key_points loads key (Except.ok raw) = ⟨Response.ok (Json.obj d), []⟩) := by
  constructor
  · intro hbad
    rw [get_key_points_ok_unfold loads key raw hk, hex]
    dsimp only
    unfold key_points_validate
    rw [hld]
    dsimp only
    rw [if_pos ?_]
    rcases hbad with hbad | hbad
    · rw [hbad]
      rfl
    · rw [hbad]
      simp
  · intro xs ys hes hen hsx hsy
    rw [get_key_points_ok_unfold loads key raw hk, hex]
    dsimp only
    unfold key_points_validate
    rw [hld]
    dsimp only
    rw [hes, hen]
    rfl

/-- Witness for claim C3: the specification examples — key_points_es a
bare string gives 400, both values lists of strings give 200. -/
theorem claim_C3_key_points_shape_witness :
    (get_key_points
        (fun _ => Except.ok [(("key_points_es"), Json.str ("not a list")), (("key_points_en"), Json.arr [Json.str ("a")])])
        ("k") (Except.ok ("\x7b\x7d")) =
      ⟨Response.httpError 400 msgMissingKeyPoints, []⟩) ∧
    (get_key_points
        (fun _ => Except.ok [(("key_points_es"), Json.arr [Json.str ("a"), Json.str ("b"), Json.str ("c")]), (("key_points_en"), Json.arr [Json.str ("a"), Json.str ("b"), Json.str ("c")])])
        ("k") (Except.ok ("\x7b\x7d")) =
      ⟨Response.ok (Json.obj [(("key_points_es"), Json.arr [Json.str ("a"), Json.str ("b"), Json.str ("c")]), (("key_points_en"), Json.arr [Json.str ("a"), Json.str ("b"), Json.str ("c")])]), []⟩) :=
  ⟨(claim_C3_key_points_shape
      (fun _ => Except.ok [(("key_points_es"), Json.str ("not a list")), (("key_points_en"), Json.arr [Json.str ("a")])])
      ("k") ("\x7b\x7d") (String.toList ("\x7b\x7d")) _ (by decide) rfl rfl).1 (Or.inl rfl),
   (claim_C3_key_points_shape
      (fun _ => Except.ok [(("key_points_es"), Json.arr [Json.str ("a"), Json.str ("b"), Json.str ("c")]), (("key_points_en"), Json.arr [Json.str ("a"), Json.str ("b"), Json.str ("c")])])
      ("k") ("\x7b\x7d") (String.toList ("\x7b\x7d")) _ (by decide) rfl rfl).2
      [Json.str ("a"), Json.str ("b"), Json.str ("c")] [Json.str ("a"), Json.str ("b"), Json.str ("c")]
      rfl rfl rfl rfl⟩

/-- Claim C10: when the parsed dict carries the required fields plus an
arbitrary extra key, both handlers return 200 with the full parsed dict
itself — validation inspects only the required fields and nothing is
filtered, whitelisted, or removed before the dict is returned. -/
theorem claim_C10_extra_keys_passthrough (loads : String → Except String PyDict)
    (key raw : String) (cs : List Char) (d : PyDict) (k : String) (hk : key ≠ "")
    (hex : extract_json raw.toList = some cs)
    (hld : loads (String.mk cs) = Except.ok d)
    (_hextra : py_dict_contains d k = true) :
    (py_dict_contains d ("summary_es") = true →
      py_dict_contains d ("summary_en") = true →
      k ≠ "summary_es" → k ≠ "summary_en" →
      summarize_text loads key (Except.ok raw) = ⟨Response.ok (Json.obj d), []⟩) ∧
    (∀ xs ys, py_dict_get d ("key_points_es") = some (Json.arr xs) →
      py_dict_get d ("key_points_en") = some (Json.arr ys) →
      k ≠ "key_points_es" → k ≠ "key_points_en" →
      get_key_points loads key (Except.ok raw) = ⟨Response.ok (Json.obj d), []⟩) := by
  constructor
  · intro h1 h2 _ _
    rw [summarize_text_ok_unfold loads key raw hk, hex]
    dsimp only
    unfold summarize_validate
    rw [hld]
    dsimp only
    rw [h1, h2]
    rfl
  · intro xs ys hes hen _ _
    rw [get_key_points_ok_unfold loads key raw hk, hex]
    dsimp only
    unfold key_points_validate
    rw [hld]
    dsimp only
    rw [hes, hen]
    rfl

/-- Witness for claim C10: dicts carrying an unrelated extra field come
back whole from both handlers. -/
theorem claim_C10_extra_keys_passthrough_witness :
    (summarize_text
        (fun _ => Except.ok [(("summary_es"), Json.str ("r")), (("summary_en"), Json.str ("s")), (("extra"), Json.num 7)])
        ("k") (Except.ok ("\x7b\x7d")) =
      ⟨Response.ok (Json.obj [(("summary_es"), Json.str ("r")), (("summary_en"), Json.str ("s")), (("extra"), Json.num 7)]), []⟩) ∧
    (get_key_points
        (fun _ => Except.ok [(("key_points_es"), Json.arr [Json.str ("a")]), (("key_points_en"), Json.arr [Json.str ("b")]), (("extra"), Json.num 7)])
        ("k") (Except.ok ("\x7b\x7d")) =
      ⟨Response.ok (Json.obj [(("key_points_es"), Json.arr [Json.str ("a")]), (("key_points_en"), Json.arr [Json.str ("b")]), (("extra"), Json.num 7)]), []⟩) :=
  ⟨(claim_C10_extra_keys_passthrough
      (fun _ => Except.ok [(("summary_es"), Json.str ("r")), (("summary_en"), Json.str ("s")), (("extra"), Json.num 7)])
      ("k") ("\x7b\x7d") (String.toList ("\x7b\x7d")) _ ("extra") (by decide) rfl rfl rfl).1
      rfl rfl (by decide) (by decide),
   (claim_C10_extra_keys_passthrough
      (fun _ => Except.ok [(("key_points_es"), Json.arr [Json.str ("a")]), (("key_points_en"), Json.arr [Json.str ("b")]), (("extra"), Json.num 7)])
      ("k") ("\x7b\x7d") (String.toList ("\x7b\x7d")) _ ("extra") (by decide) rfl rfl rfl).2
      [Json.str ("a")] [Json.str ("b")] rfl rfl (by decide) (by decide)⟩
